import Mathlib

/-!
# Verification of the linkdrop NFT stage-2 core (`src/contract/src/stage2/nft.rs`)

Shallow embedding of the NFT registration and resolution handlers of the
`DropZone` contract.  Contract storage is modelled with value semantics, as
the spec itself describes it (§5: an exclusive, call-scoped checkout-and-
writeback discipline; §3: the data is "read-mutated-rewritten as a whole on
every operation"): the Drop Store is a map from drop identifier to `Drop`
record, a call reads a record, mutates a local copy, and persists only by
`insert`ing it back.  A Rust `panic` / failed `require!` aborts the call and
reverts all state, modelled by `Except.error` carrying no state.

The asynchronous-outcome oracle (`env::promise_result(0)`) is passed to each
resolution handler as an explicit boolean `transfer_succeeded` argument.
-/

namespace Linkdrop

/-- `NFTData` from `nft.rs` lines 4-11.  `token_ids: UnorderedSet<String>` is
modelled as a duplicate-free list of strings (uniqueness is enforced at
insertion, see `setInsert`). -/
structure NFTData where
  nft_sender : String
  nft_contract : String
  longest_token_id : String
  storage_for_longest : Nat
  token_ids : List String
deriving DecidableEq, Repr

/-- `NFTDataConfig` from `nft.rs` lines 14-20; caller-supplied template, not
mutated by this core. -/
structure NFTDataConfig where
  nft_sender : String
  nft_contract : String
  longest_token_id : String
deriving DecidableEq, Repr

/-- The drop-type sum.  In the source, `nft_on_transfer` destructures it with
the irrefutable pattern `let DropType::NFT(mut nft_data) = drop.drop_type;`
(line 33), which only compiles if `NFT` is the sole variant, so the type is
embedded with exactly that one constructor. -/
inductive DropType where
  | NFT : NFTData → DropType
deriving DecidableEq, Repr

/-- Modelled from the spec: drop configuration record (§3), defined outside
`src/`; only `max_claims_per_key : u64` is used by this core. -/
structure DropConfig where
  max_claims_per_key : Nat
deriving DecidableEq, Repr

/-- Modelled from the spec: the `Drop` record (§3), defined outside `src/`.
`num_claims_registered : u64` counts admitted-but-unclaimed units, `pks` is
the sequence of claimant public keys (only its length is used here), and
`drop_type` holds the asset payload. -/
structure Drop where
  num_claims_registered : Nat
  pks : List String
  drop_config : DropConfig
  drop_type : DropType
deriving DecidableEq, Repr

/-- Modelled from the spec: the contract state, whose `drop_for_id` Drop
Store maps a drop identifier to its `Drop` record (§6: `get` / `insert`). -/
structure DropZone where
  drop_for_id : Nat → Option Drop

/-- Drop Store writeback: `self.drop_for_id.insert(&id, &drop)`. -/
def DropZone.insert (self : DropZone) (id : Nat) (d : Drop) : DropZone :=
  ⟨fun i => if i = id then some d else self.drop_for_id i⟩

/-- `UnorderedSet::insert`: returns whether the element was newly inserted,
together with the updated set; a duplicate leaves the set unchanged. -/
def setInsert (s : List String) (x : String) : Bool × List String :=
  if x ∈ s then (false, s) else (true, s ++ [x])

/-- `UnorderedSet::remove`: returns whether the element was present, together
with the updated set; removing an absent element is a no-op. -/
def setRemove (s : List String) (x : String) : Bool × List String :=
  if x ∈ s then (true, s.erase x) else (false, s)

/-- The removal loop of `nft_resolve_refund` (lines 93-95): for each id in
the argument list, remove it from the set, tolerating absent ids. -/
def removeTokenIds (ids : List String) (token_ids : List String) : List String :=
  token_ids.foldl (fun s id => (setRemove s id).2) ids

/-- `nft_on_transfer` (lines 24-62).  `contract_id` stands for
`env::predecessor_account_id()` and `msg : U128` is the drop id.  Each
`expect` / `require!` failure aborts with no state change.  On success the
token id is inserted into the set, the claim counter is incremented and then
clamped to `pks.len() * max_claims_per_key`, and the updated drop is written
back; the returned `false` means the NFT is retained. -/
def nft_on_transfer (self : DropZone) (token_id : String) (sender_id : String)
    (contract_id : String) (msg : Nat) : Except String (DropZone × Bool) :=
  match self.drop_for_id msg with
  | none => Except.error "No drop found for ID"
  | some drop =>
    match drop.drop_type with
    | DropType.NFT nft_data =>
      if ¬(nft_data.nft_sender = sender_id ∧ nft_data.nft_contract = contract_id) then
        Except.error "NFT data must match what was sent"
      else if ¬(token_id.length ≤ nft_data.longest_token_id.length) then
        Except.error "token ID must be less than largest token specified"
      else
        if ¬((setInsert nft_data.token_ids token_id).1 = true) then
          Except.error "token ID already registered"
        else
          let nft_data' := { nft_data with token_ids := (setInsert nft_data.token_ids token_id).2 }
          let drop₁ := { drop with num_claims_registered := drop.num_claims_registered + 1 }
          let drop₂ :=
            if drop₁.pks.length * drop₁.drop_config.max_claims_per_key <
                drop₁.num_claims_registered then
              { drop₁ with num_claims_registered :=
                  drop₁.pks.length * drop₁.drop_config.max_claims_per_key }
            else drop₁
          let drop₃ := { drop₂ with drop_type := DropType.NFT nft_data' }
          Except.ok (self.insert msg drop₃, false)

/-- `nft_resolve_refund` (lines 66-101).  On a failed transfer it re-credits
the counter by `token_ids.len()` and writes the drop back (line 81).  On a
successful transfer it removes each listed id from a local copy of the set
(lines 93-95) and reassembles the drop locally, but — exactly as the source
does — never inserts the updated drop back into `drop_for_id`, so the state
returned is the input state unchanged. -/
def nft_resolve_refund (self : DropZone) (transfer_succeeded : Bool)
    (drop_id : Nat) (token_ids : List String) : Except String (DropZone × Bool) :=
  if ¬(transfer_succeeded = true) then
    match self.drop_for_id drop_id with
    | none => Except.error "called Option unwrap on a None value"
    | some drop =>
      let drop' := { drop with num_claims_registered :=
          drop.num_claims_registered + token_ids.length }
      Except.ok (self.insert drop_id drop', false)
  else
    match self.drop_for_id drop_id with
    | none => Except.error "called Option unwrap on a None value"
    | some drop =>
      match drop.drop_type with
      | DropType.NFT nft_data =>
        let ids' := removeTokenIds nft_data.token_ids token_ids
        let nft_data' := { nft_data with token_ids := ids' }
        let _drop' := { drop with drop_type := DropType.NFT nft_data' }
        Except.ok (self, true)

/-- Modelled from the spec: the minimal fixed gas budget constant
`MIN_GAS_FOR_SIMPLE_NFT_TRANSFER`, defined outside `src/` (§4.3: "a minimal
fixed resource budget"); its concrete magnitude is irrelevant to the claims,
which only require the scheduled call to carry exactly this fixed budget. -/
def MIN_GAS_FOR_SIMPLE_NFT_TRANSFER : Nat := 10000000000000

/-- The arguments of an outbound `nft_transfer` call (receiver, token id,
`approval_id`, memo), as passed on lines 128-133. -/
structure NftTransferArgs where
  receiver_id : String
  token_id : String
  approval_id : Option Nat
  memo : Option String
deriving DecidableEq, Repr

/-- One scheduled cross-contract promise: target contract, static gas,
attached deposit, and the `nft_transfer` arguments. -/
structure PromiseCall where
  contract : String
  static_gas : Nat
  attached_deposit : Nat
  args : NftTransferArgs
deriving DecidableEq, Repr

/-- `nft_resolve_transfer` (lines 105-137).  Returns the (unmodified) state,
the list of compensating promises scheduled, and the boolean result.  On a
successful transfer nothing happens; on a failed transfer exactly one
compensating `nft_transfer` of `token_id` to `token_sender` via
`token_contract` is scheduled, with the minimal fixed gas, a 1-yoctoNEAR
deposit, no approval id, and the memo "Linkdropped NFT Refund". -/
def nft_resolve_transfer (self : DropZone) (transfer_succeeded : Bool)
    (token_id : String) (token_sender : String) (token_contract : String) :
    DropZone × List PromiseCall × Bool :=
  if ¬(transfer_succeeded = true) then
    (self,
     [{ contract := token_contract,
        static_gas := MIN_GAS_FOR_SIMPLE_NFT_TRANSFER,
        attached_deposit := 1,
        args := { receiver_id := token_sender, token_id := token_id,
                  approval_id := none, memo := some "Linkdropped NFT Refund" } }],
     false)
  else
    (self, [], true)

/-- The token-id inventory stored for a drop id, read back from the Drop
Store (the set inside the `NFT` payload of the stored record). -/
def storedTokenIds (s : DropZone) (id : Nat) : Option (List String) :=
  (s.drop_for_id id).map (fun d => match d.drop_type with | DropType.NFT nd => nd.token_ids)

/-- The `num_claims_registered` counter stored for a drop id. -/
def storedClaims (s : DropZone) (id : Nat) : Option Nat :=
  (s.drop_for_id id).map Drop.num_claims_registered

lemma setRemove_snd_eq_erase (s : List String) (x : String) :
    (setRemove s x).2 = s.erase x := by
  unfold setRemove
  split
  · rfl
  · rename_i h
    exact (List.erase_of_not_mem h).symm

lemma removeTokenIds_nil (ids : List String) : removeTokenIds ids [] = ids := rfl

lemma removeTokenIds_cons (ids : List String) (t : String) (ts : List String) :
    removeTokenIds ids (t :: ts) = removeTokenIds (ids.erase t) ts := by
  rw [removeTokenIds, List.foldl_cons, setRemove_snd_eq_erase]
  rfl

/-- Membership after the removal loop: on a duplicate-free set, exactly the
ids not listed for removal survive. -/
lemma mem_removeTokenIds {ids : List String} (tids : List String)
    (hnd : ids.Nodup) (x : String) :
    x ∈ removeTokenIds ids tids ↔ x ∈ ids ∧ x ∉ tids := by
  induction tids generalizing ids with
  | nil => simp [removeTokenIds_nil]
  | cons t ts ih =>
    rw [removeTokenIds_cons, ih (hnd.erase t), hnd.mem_erase_iff]
    simp only [List.mem_cons]
    tauto

/-- Removing ids none of which are present leaves the set unchanged. -/
lemma removeTokenIds_eq_self_of_disjoint {ids tids : List String}
    (h : ∀ x ∈ tids, x ∉ ids) : removeTokenIds ids tids = ids := by
  induction tids generalizing ids with
  | nil => rfl
  | cons t ts ih =>
    rw [removeTokenIds_cons, List.erase_of_not_mem (h t (by simp))]
    exact ih fun x hx => h x (by simp [hx])

/-- A sample drop used to instantiate the hypothesis-bearing theorems:
drop id 7, two keys, one claim per key, one claim already registered for
token `"tok1"`. -/
def exNd : NFTData := ⟨"alice", "nftc", "tokenAAA", 0, ["tok1"]⟩

def exDrop : Drop := ⟨1, ["pk1", "pk2"], ⟨1⟩, DropType.NFT exNd⟩

def exState : DropZone := ⟨fun i => if i = 7 then some exDrop else none⟩

/-- C1 (amended).  For every registration passing all validations, the set
gains exactly the registered `token_id` (appended to a set it was absent
from) and `num_claims_registered` increases by exactly one — unless the
pre-increment value is already at least `len(pks) * max_claims_per_key`
(possible after failed-refund re-credits, not only at exact equality), in
which case the post-value equals that product; the token is retained and the
updated drop is written back either way. -/
theorem registration_success_effect (s : DropZone)
    (token_id sender_id contract_id : String) (msg : Nat) (drop : Drop) (nd : NFTData)
    (hget : s.drop_for_id msg = some drop)
    (hty : drop.drop_type = DropType.NFT nd)
    (hsender : nd.nft_sender = sender_id)
    (hcontract : nd.nft_contract = contract_id)
    (hlen : token_id.length ≤ nd.longest_token_id.length)
    (hnew : token_id ∉ nd.token_ids) :
    nft_on_transfer s token_id sender_id contract_id msg =
      Except.ok (s.insert msg
        { drop with
          num_claims_registered :=
            if drop.pks.length * drop.drop_config.max_claims_per_key ≤
                drop.num_claims_registered then
              drop.pks.length * drop.drop_config.max_claims_per_key
            else drop.num_claims_registered + 1,
          drop_type := DropType.NFT { nd with token_ids := nd.token_ids ++ [token_id] } },
        false) := by
  simp [nft_on_transfer, hget, hty, setInsert, hsender, hcontract, hlen, hnew,
    Nat.lt_add_one_iff, apply_ite Drop.num_claims_registered, apply_ite Drop.pks,
    apply_ite Drop.drop_config]

/-- Witness for `registration_success_effect` at the concrete sample state:
registering `"tok2"` on the drop holding `{"tok1"}` with quota 2. -/
theorem registration_success_effect_witness :
    nft_on_transfer exState "tok2" "alice" "nftc" 7 =
      Except.ok (exState.insert 7
        { exDrop with
          num_claims_registered :=
            if exDrop.pks.length * exDrop.drop_config.max_claims_per_key ≤
                exDrop.num_claims_registered then
              exDrop.pks.length * exDrop.drop_config.max_claims_per_key
            else exDrop.num_claims_registered + 1,
          drop_type := DropType.NFT { exNd with token_ids := exNd.token_ids ++ ["tok2"] } },
        false) :=
  registration_success_effect exState "tok2" "alice" "nftc" 7 exDrop exNd
    rfl rfl rfl rfl (by decide) (by decide)

/-- A drop whose counter already exceeds the quota product (reachable via a
failed-refund re-credit, as in the end-to-end scenario): counter 3 with
`pks.len * max_claims_per_key = 2`. -/
def cexNd : NFTData := ⟨"alice", "nftc", "tokenAAA", 0, ["tok1", "tok2", "tok3"]⟩

def cexDrop : Drop := ⟨3, ["pk1", "pk2"], ⟨1⟩, DropType.NFT cexNd⟩

def cexState : DropZone := ⟨fun i => if i = 0 then some cexDrop else none⟩

/-- C1 as literally stated is false: from the state above, registering
`"tok4"` passes every validation, yet the pre-increment counter 3 is NOT
equal to the product 2 (so the claim demands an increase by exactly one, to
4), while the code clamps the post-value down to 2. -/
theorem registration_exact_increment_counterexample :
    nft_on_transfer cexState "tok4" "alice" "nftc" 0 =
      Except.ok (cexState.insert 0 ⟨2, ["pk1", "pk2"], ⟨1⟩,
        DropType.NFT ⟨"alice", "nftc", "tokenAAA", 0,
          ["tok1", "tok2", "tok3", "tok4"]⟩⟩, false) ∧
    cexDrop.num_claims_registered ≠
      cexDrop.pks.length * cexDrop.drop_config.max_claims_per_key ∧
    storedClaims (cexState.insert 0 ⟨2, ["pk1", "pk2"], ⟨1⟩,
        DropType.NFT ⟨"alice", "nftc", "tokenAAA", 0,
          ["tok1", "tok2", "tok3", "tok4"]⟩⟩) 0 ≠
      some (cexDrop.num_claims_registered + 1) :=
  ⟨rfl, by decide, by decide⟩

/-- C2.  Every failed registration validation — unknown drop, sender or
contract not matching the recorded `nft_sender`/`nft_contract`, token id
longer than `longest_token_id`, or token id already present — makes
`nft_on_transfer` abort with an error.  In this embedding an aborted call is
`Except.error`, which carries no state: the Drop Store and inventory are
untouched, exactly as a reverted panic leaves them.  (A non-NFT asset
payload is unrepresentable here because the source destructures the drop
type with an irrefutable single-variant pattern, line 33.) -/
theorem registration_validation_aborts (s : DropZone)
    (token_id sender_id contract_id : String) (msg : Nat)
    (h : s.drop_for_id msg = none ∨
      ∃ drop nd, s.drop_for_id msg = some drop ∧ drop.drop_type = DropType.NFT nd ∧
        (nd.nft_sender ≠ sender_id ∨ nd.nft_contract ≠ contract_id ∨
         nd.longest_token_id.length < token_id.length ∨ token_id ∈ nd.token_ids)) :
    ∃ e, nft_on_transfer s token_id sender_id contract_id msg = Except.error e := by
  cases hres : nft_on_transfer s token_id sender_id contract_id msg with
  | error e => exact ⟨e, rfl⟩
  | ok p =>
    exfalso
    rcases h with h | ⟨drop, nd, hget, hty, hbad⟩
    · rw [nft_on_transfer, h] at hres
      simp at hres
    · simp only [nft_on_transfer, hget, hty, setInsert] at hres
      split_ifs at hres <;> simp_all <;> omega

/-- Witness for `registration_validation_aborts`: registering the duplicate
`"tok1"` on the sample drop aborts. -/
theorem registration_validation_aborts_witness :
    "tok1" ∈ exNd.token_ids ∧
    ∃ e, nft_on_transfer exState "tok1" "alice" "nftc" 7 = Except.error e :=
  ⟨by decide,
   registration_validation_aborts exState "tok1" "alice" "nftc" 7
     (Or.inr ⟨exDrop, exNd, rfl, rfl, Or.inr (Or.inr (Or.inr (by decide)))⟩)⟩

/-- C3.  After every completed registration, the drop written back satisfies
`num_claims_registered ≤ len(pks) * max_claims_per_key`: the post-increment
clamp (lines 49-52) restores the quota invariant unconditionally. -/
theorem registration_clamp_invariant (s : DropZone)
    (token_id sender_id contract_id : String) (msg : Nat)
    (s' : DropZone) (b : Bool) (drop' : Drop)
    (hok : nft_on_transfer s token_id sender_id contract_id msg = Except.ok (s', b))
    (hget : s'.drop_for_id msg = some drop') :
    drop'.num_claims_registered ≤
      drop'.pks.length * drop'.drop_config.max_claims_per_key := by
  rcases hs : s.drop_for_id msg with _ | drop
  · rw [nft_on_transfer, hs] at hok
    simp at hok
  · rcases hdt : drop.drop_type with ⟨nd⟩
    simp only [nft_on_transfer, hs, hdt, setInsert] at hok
    split_ifs at hok <;> try simp at hok
    all_goals try exact False.elim (by assumption)
    all_goals (
      obtain ⟨h5, -⟩ := hok
      subst h5
      simp only [DropZone.insert, eq_self_iff_true, ite_true, Option.some.injEq] at hget
      subst hget
      dsimp only
      omega)

/-- Witness for `registration_clamp_invariant`: the successful registration
of `"tok2"` on the sample drop yields a stored counter within quota. -/
theorem registration_clamp_invariant_witness :
    nft_on_transfer exState "tok2" "alice" "nftc" 7 =
      Except.ok (exState.insert 7 ⟨2, ["pk1", "pk2"], ⟨1⟩,
        DropType.NFT ⟨"alice", "nftc", "tokenAAA", 0, ["tok1", "tok2"]⟩⟩, false) ∧
    (⟨2, ["pk1", "pk2"], ⟨1⟩,
        DropType.NFT ⟨"alice", "nftc", "tokenAAA", 0, ["tok1", "tok2"]⟩⟩ : Drop).num_claims_registered ≤
      (⟨2, ["pk1", "pk2"], ⟨1⟩,
        DropType.NFT ⟨"alice", "nftc", "tokenAAA", 0, ["tok1", "tok2"]⟩⟩ : Drop).pks.length *
      (⟨2, ["pk1", "pk2"], ⟨1⟩,
        DropType.NFT ⟨"alice", "nftc", "tokenAAA", 0, ["tok1", "tok2"]⟩⟩ : Drop).drop_config.max_claims_per_key :=
  ⟨rfl,
   registration_clamp_invariant exState "tok2" "alice" "nftc" 7
     (exState.insert 7 ⟨2, ["pk1", "pk2"], ⟨1⟩,
        DropType.NFT ⟨"alice", "nftc", "tokenAAA", 0, ["tok1", "tok2"]⟩⟩) false
     ⟨2, ["pk1", "pk2"], ⟨1⟩,
        DropType.NFT ⟨"alice", "nftc", "tokenAAA", 0, ["tok1", "tok2"]⟩⟩
     rfl rfl⟩

/-- C4.  When the observed asynchronous transfer outcome is failure,
`nft_resolve_refund` re-credits `num_claims_registered` by exactly
`token_ids.len()`, writes the drop (with every other field, including the
`token_ids` inventory, unchanged) back to the Drop Store, and returns
`false`. -/
theorem refund_failure_recredit (s : DropZone) (drop_id : Nat)
    (token_ids : List String) (drop : Drop)
    (hget : s.drop_for_id drop_id = some drop) :
    nft_resolve_refund s false drop_id token_ids =
      Except.ok (s.insert drop_id
        { drop with num_claims_registered :=
            drop.num_claims_registered + token_ids.length }, false) := by
  simp [nft_resolve_refund, hget]

/-- Witness for `refund_failure_recredit`: a failed two-token refund on the
sample drop re-credits the counter from 1 to 3. -/
theorem refund_failure_recredit_witness :
    nft_resolve_refund exState false 7 ["tokA", "tokB"] =
      Except.ok (exState.insert 7
        { exDrop with num_claims_registered :=
            exDrop.num_claims_registered + (["tokA", "tokB"] : List String).length },
        false) :=
  refund_failure_recredit exState 7 ["tokA", "tokB"] exDrop rfl

/-- C5.  When the observed outcome is success, `nft_resolve_refund` returns
`true` without error for an arbitrary id list (absent ids are tolerated) and
leaves `num_claims_registered` — indeed the whole stored state — unchanged;
the removal loop it runs over the drop's duplicate-free set keeps exactly
the ids not listed for removal, i.e. each listed id that was present is
removed and every other member is retained.  (Whether the removal reaches
the Drop Store is a separate question, settled negatively by
`refund_success_not_persisted`.) -/
theorem refund_success_removal (s : DropZone) (drop_id : Nat)
    (token_ids : List String) (drop : Drop) (nd : NFTData)
    (hget : s.drop_for_id drop_id = some drop)
    (hty : drop.drop_type = DropType.NFT nd)
    (hnd : nd.token_ids.Nodup) :
    nft_resolve_refund s true drop_id token_ids = Except.ok (s, true) ∧
    ∀ x, x ∈ removeTokenIds nd.token_ids token_ids ↔
      x ∈ nd.token_ids ∧ x ∉ token_ids :=
  ⟨by simp [nft_resolve_refund, hget, hty],
   fun x => mem_removeTokenIds token_ids hnd x⟩

/-- Witness for `refund_success_removal`: a successful-outcome resolution
listing the present `"tok1"` and the absent `"nope"`. -/
theorem refund_success_removal_witness :
    nft_resolve_refund exState true 7 ["tok1", "nope"] = Except.ok (exState, true) ∧
    ∀ x, x ∈ removeTokenIds exNd.token_ids ["tok1", "nope"] ↔
      x ∈ exNd.token_ids ∧ x ∉ (["tok1", "nope"] : List String) :=
  refund_success_removal exState 7 ["tok1", "nope"] exDrop exNd rfl rfl (by decide)

/-- C6 is a code bug: the success branch of `nft_resolve_refund` (source
lines 89-100) never executes `self.drop_for_id.insert(&drop_id.0, &drop)`,
unlike the failure branch (line 81) and `nft_on_transfer` (line 58), so the
updated `NFTData` is not persisted.  Concretely: the call returns `true`,
yet the drop record read back from the Drop Store still contains the
supposedly removed `"tok1"` — even though the removal loop itself did drop
it from the in-call copy. -/
theorem refund_success_not_persisted :
    nft_resolve_refund exState true 7 ["tok1"] = Except.ok (exState, true) ∧
    storedTokenIds exState 7 = some ["tok1"] ∧
    removeTokenIds exNd.token_ids ["tok1"] = [] :=
  ⟨rfl, rfl, rfl⟩

/-- C7.  `nft_resolve_transfer` on a successful outcome returns `true`,
mutates no state, and schedules no call; on a failed outcome it schedules
exactly one compensating `nft_transfer` of `token_id` addressed to
`token_sender` via `token_contract`, with the minimal fixed gas budget, a
1-unit attached deposit, no approval id, and the memo
"Linkdropped NFT Refund", and returns `false`. -/
theorem resolve_transfer_spec (s : DropZone)
    (token_id token_sender token_contract : String) :
    nft_resolve_transfer s true token_id token_sender token_contract =
      (s, [], true) ∧
    nft_resolve_transfer s false token_id token_sender token_contract =
      (s, [{ contract := token_contract,
             static_gas := MIN_GAS_FOR_SIMPLE_NFT_TRANSFER,
             attached_deposit := 1,
             args := { receiver_id := token_sender, token_id := token_id,
                       approval_id := none,
                       memo := some "Linkdropped NFT Refund" } }],
       false) :=
  ⟨rfl, rfl⟩

/-- C10.  `nft_resolve_transfer` leaves the entire Drop Store untouched in
both outcome branches — every drop's counter and inventory is exactly as
before; in particular the failure branch only schedules the compensating
transfer and does not re-credit `num_claims_registered`. -/
theorem resolve_transfer_frame (s : DropZone) (transfer_succeeded : Bool)
    (token_id token_sender token_contract : String) :
    (nft_resolve_transfer s transfer_succeeded token_id token_sender
        token_contract).1 = s ∧
    ∀ id, storedClaims ((nft_resolve_transfer s transfer_succeeded token_id
        token_sender token_contract).1) id = storedClaims s id ∧
      storedTokenIds ((nft_resolve_transfer s transfer_succeeded token_id
        token_sender token_contract).1) id = storedTokenIds s id := by
  cases transfer_succeeded <;> exact ⟨rfl, fun id => ⟨rfl, rfl⟩⟩

/-- C9.  Replaying a successful-outcome `nft_resolve_refund` with the same
id list does not error, returns `true`, and changes neither the counter nor
anything else: the first call already returns the state unchanged, so the
replay observes the very same state and result.  Moreover the removal loop
itself is idempotent on a duplicate-free set: running it again over its own
output removes nothing further. -/
theorem refund_success_idempotent (s : DropZone) (drop_id : Nat)
    (token_ids : List String) (drop : Drop) (nd : NFTData)
    (hget : s.drop_for_id drop_id = some drop)
    (hty : drop.drop_type = DropType.NFT nd)
    (hnd : nd.token_ids.Nodup) :
    (∀ s₁ b₁, nft_resolve_refund s true drop_id token_ids = Except.ok (s₁, b₁) →
      nft_resolve_refund s₁ true drop_id token_ids = Except.ok (s₁, true)) ∧
    removeTokenIds (removeTokenIds nd.token_ids token_ids) token_ids =
      removeTokenIds nd.token_ids token_ids := by
  have hfirst : nft_resolve_refund s true drop_id token_ids = Except.ok (s, true) := by
    simp [nft_resolve_refund, hget, hty]
  refine ⟨?_, ?_⟩
  · intro s₁ b₁ h₁
    rw [hfirst] at h₁
    simp only [Except.ok.injEq, Prod.mk.injEq] at h₁
    obtain ⟨rfl, -⟩ := h₁
    exact hfirst
  · exact removeTokenIds_eq_self_of_disjoint fun x hx hmem =>
      ((mem_removeTokenIds token_ids hnd x).mp hmem).2 hx

/-- Witness for `refund_success_idempotent` on the sample drop, replaying
the removal of `"tok1"`. -/
theorem refund_success_idempotent_witness :
    (∀ s₁ b₁, nft_resolve_refund exState true 7 ["tok1"] = Except.ok (s₁, b₁) →
      nft_resolve_refund s₁ true 7 ["tok1"] = Except.ok (s₁, true)) ∧
    removeTokenIds (removeTokenIds exNd.token_ids ["tok1"]) ["tok1"] =
      removeTokenIds exNd.token_ids ["tok1"] :=
  refund_success_idempotent exState 7 ["tok1"] exDrop exNd rfl rfl (by decide)

/-- Drop for the end-to-end scenario: two keys, one claim per key, longest
token id `"tokenAAA"`, empty inventory. -/
def scnDrop : Drop := ⟨0, ["pk1", "pk2"], ⟨1⟩, DropType.NFT ⟨"alice", "nftc", "tokenAAA", 0, []⟩⟩

def scn0 : DropZone := ⟨fun i => if i = 7 then some scnDrop else none⟩

def scn1 : DropZone :=
  scn0.insert 7 ⟨1, ["pk1", "pk2"], ⟨1⟩,
    DropType.NFT ⟨"alice", "nftc", "tokenAAA", 0, ["tok1"]⟩⟩

def scn2 : DropZone :=
  scn1.insert 7 ⟨2, ["pk1", "pk2"], ⟨1⟩,
    DropType.NFT ⟨"alice", "nftc", "tokenAAA", 0, ["tok1", "tok2"]⟩⟩

def scn3 : DropZone :=
  scn2.insert 7 ⟨2, ["pk1", "pk2"], ⟨1⟩,
    DropType.NFT ⟨"alice", "nftc", "tokenAAA", 0, ["tok1", "tok2", "tok3"]⟩⟩

def scn4 : DropZone :=
  scn3.insert 7 ⟨3, ["pk1", "pk2"], ⟨1⟩,
    DropType.NFT ⟨"alice", "nftc", "tokenAAA", 0, ["tok1", "tok2", "tok3"]⟩⟩

/-- C8 diverges from the code at its final step.  Steps 1-4 behave exactly
as claimed: registering `"tok1"`, `"tok2"`, `"tok3"` yields counters 1, 2, 2
(clamped) with set `{"tok1","tok2","tok3"}`, and a failed-outcome
`resolve_refund(["tok1"])` re-credits the counter to 3 leaving the set
unchanged.  But the final successful-outcome `resolve_refund(["tok2"])`
returns `true` while leaving the Drop Store exactly as it was — the stored
set is still `{"tok1","tok2","tok3"}`, not the claimed `{"tok1","tok3"}` —
because the success branch never persists the updated drop (the
`refund_success_not_persisted` bug). -/
theorem end_to_end_scenario :
    nft_on_transfer scn0 "tok1" "alice" "nftc" 7 = Except.ok (scn1, false) ∧
    nft_on_transfer scn1 "tok2" "alice" "nftc" 7 = Except.ok (scn2, false) ∧
    nft_on_transfer scn2 "tok3" "alice" "nftc" 7 = Except.ok (scn3, false) ∧
    nft_resolve_refund scn3 false 7 ["tok1"] = Except.ok (scn4, false) ∧
    storedClaims scn1 7 = some 1 ∧ storedTokenIds scn1 7 = some ["tok1"] ∧
    storedClaims scn2 7 = some 2 ∧ storedTokenIds scn2 7 = some ["tok1", "tok2"] ∧
    storedClaims scn3 7 = some 2 ∧
    storedTokenIds scn3 7 = some ["tok1", "tok2", "tok3"] ∧
    storedClaims scn4 7 = some 3 ∧
    storedTokenIds scn4 7 = some ["tok1", "tok2", "tok3"] ∧
    nft_resolve_refund scn4 true 7 ["tok2"] = Except.ok (scn4, true) ∧
    storedTokenIds scn4 7 ≠ some ["tok1", "tok3"] :=
  ⟨rfl, rfl, rfl, rfl, rfl, rfl, rfl, rfl, rfl, rfl, rfl, rfl, rfl, by decide⟩

end Linkdrop
